import Mathlib

/-!
# Verification of the `testserver` package (charm)

A shallow embedding of `src/testserver/testserver.go` and proofs of the
spec's claims about it.

The package has two parts that the claims touch:

* `FetchURL`, the readiness probe: an HTTP GET with a bounded retry budget
  (recursive, sleeping 1 second between attempts);
* `SetupTestServerWithAgent`, the harness orchestrator: it writes
  environment variables, starts a server and (optionally) a fake ssh
  agent, registers teardown actions with the test framework's `Cleanup`
  mechanism, and constructs one or two client handles.

Network, processes and real time are modelled by oracles: the sequence of
HTTP results is a function `Nat → GetResult` (the result of attempt `i`);
allocator results, temp-dir paths and the agent socket are input fields.
Environment mutation and teardown registration are made explicit as data
(an `Env` function and ordered event / action lists).
-/

namespace Testserver

/-- An HTTP response, reduced to the field `FetchURL` inspects
(`resp.StatusCode`). -/
structure Response where
  statusCode : Int
deriving DecidableEq, Repr

/-- The outcome of one `http.Get` call: either a transport error (Go's
`err != nil`) or a response. -/
inductive GetResult where
  | failure (err : String)
  | response (resp : Response)
deriving DecidableEq, Repr

/-- The non-nil errors `FetchURL` can return: the transport error of the
last attempt, or the `bad http status code: %d` error. -/
inductive FetchError where
  | transport (err : String)
  | badStatus (code : Int)
deriving DecidableEq, Repr

/-- What a call to `FetchURL` produces: the `(*http.Response, error)` pair,
plus the number of `http.Get` attempts the call performed (instrumentation;
the Go code performs these as side effects). -/
structure FetchOutcome where
  resp : Option Response
  err : Option FetchError
  attempts : Nat
deriving DecidableEq, Repr

/-- `FetchURL` from `src/testserver/testserver.go`:

```go
func FetchURL(url string, retries int) (*http.Response, error) {
    resp, err := http.Get(url)
    if err != nil {
        if retries > 0 {
            time.Sleep(time.Second)
            return FetchURL(url, retries-1)
        }
        return nil, err
    }
    if resp.StatusCode != 200 {
        return resp, fmt.Errorf("bad http status code: %d", resp.StatusCode)
    }
    return resp, nil
}
```

`get` is the oracle giving the result of each successive `http.Get`;
`attempt` is the index of the next attempt (0 at the entry call). The URL
is fixed throughout and only threads through to `get`, so it is dropped. -/
def FetchURL (get : Nat → GetResult) (attempt : Nat) (retries : Int) : FetchOutcome :=
  match get attempt with
  | .failure e =>
    if h : retries > 0 then
      let r := FetchURL get (attempt + 1) (retries - 1)
      { r with attempts := r.attempts + 1 }
    else
      { resp := none, err := some (.transport e), attempts := 1 }
  | .response resp =>
    if resp.statusCode != 200 then
      { resp := some resp, err := some (.badStatus resp.statusCode), attempts := 1 }
    else
      { resp := some resp, err := none, attempts := 1 }
termination_by retries.toNat
decreasing_by
  simp_wf
  omega

/-- If every attempt is a transport failure, a call entered at attempt `a`
with budget `r` performs `r.toNat + 1` attempts and returns the error of
the final attempt, `a + r.toNat`. -/
theorem fetchURL_allFail (e : Nat → String) :
    ∀ (n : Nat) (r : Int), r.toNat = n → ∀ a : Nat,
      FetchURL (fun i => .failure (e i)) a r =
        { resp := none, err := some (.transport (e (a + n))), attempts := n + 1 }
  | 0, r, hr, a => by
    rw [FetchURL]
    have hnp : ¬ r > 0 := by omega
    simp [hnp]
  | n + 1, r, hr, a => by
    rw [FetchURL]
    have hpos : r > 0 := by omega
    have hr' : (r - 1).toNat = n := by omega
    simp only [dif_pos hpos]
    rw [fetchURL_allFail e n (r - 1) hr' (a + 1)]
    have hsum : a + 1 + n = a + (n + 1) := by omega
    rw [hsum]

/-- If attempts `a, a+1, …, a+k-1` are transport failures, attempt `a+k`
returns status 200, and `k ≤ r`, then the call entered at attempt `a` with
budget `r` returns that response with no error after exactly `k + 1`
attempts. -/
theorem fetchURL_succeedsAfter (get : Nat → GetResult) (resp : Response) :
    ∀ (k : Nat) (r : Int) (a : Nat), (k : Int) ≤ r →
      (∀ j, j < k → ∃ e, get (a + j) = .failure e) →
      get (a + k) = .response resp → resp.statusCode = 200 →
      FetchURL get a r = { resp := some resp, err := none, attempts := k + 1 }
  | 0, r, a, _, _, hresp, h200 => by
    rw [FetchURL]
    rw [show a + 0 = a from rfl] at hresp
    rw [hresp]
    simp [h200]
  | k + 1, r, a, hkr, hfail, hresp, h200 => by
    rw [FetchURL]
    obtain ⟨e, he⟩ := hfail 0 (Nat.succ_pos k)
    rw [show a + 0 = a from rfl] at he
    rw [he]
    have hpos : r > 0 := by omega
    simp only [dif_pos hpos]
    rw [fetchURL_succeedsAfter get resp k (r - 1) (a + 1) (by omega)
      (fun j hj => by
        obtain ⟨e', he'⟩ := hfail (j + 1) (by omega)
        exact ⟨e', by rw [show a + 1 + j = a + (j + 1) by omega]; exact he'⟩)
      (by rw [show a + 1 + k = a + (k + 1) by omega]; exact hresp) h200]

/-- C1 — counterexample. With retry budget 3 and the very first attempt
returning HTTP 500 (no transport error), `FetchURL` performs exactly one
attempt — an immediate return with the bad-status error — even though
budget remains; it does not sleep-and-retry as it does for connection
errors. -/
theorem fetchURL_badStatus_counterexample :
    FetchURL (fun _ => .response { statusCode := 500 }) 0 3 =
      { resp := some { statusCode := 500 },
        err := some (.badStatus 500), attempts := 1 } ∧
    (FetchURL (fun _ => .response { statusCode := 500 }) 0 3).attempts ≠ 4 := by
  constructor
  · rw [FetchURL]
    simp
  · rw [FetchURL]
    simp

/-- C1 — amended. When an attempt yields a response whose status code is
not 200, `FetchURL` returns immediately — that response paired with the
bad-status error, after a single attempt — regardless of the remaining
retry budget; only transport errors take the sleep-and-retry path. -/
theorem fetchURL_badStatus_immediate (get : Nat → GetResult) (a : Nat)
    (retries : Int) (resp : Response) (hget : get a = .response resp)
    (hcode : resp.statusCode ≠ 200) :
    FetchURL get a retries =
      { resp := some resp, err := some (.badStatus resp.statusCode),
        attempts := 1 } := by
  rw [FetchURL, hget]
  simp [hcode]

/-- C1 — witness for the amended theorem. -/
theorem fetchURL_badStatus_immediate_witness :
    FetchURL (fun _ => .response { statusCode := 404 }) 0 7 =
      { resp := some { statusCode := 404 },
        err := some (.badStatus 404), attempts := 1 } :=
  fetchURL_badStatus_immediate (fun _ => .response { statusCode := 404 }) 0 7
    { statusCode := 404 } rfl (by decide)

/-- C5. With budget `retries ≥ 1` against an endpoint where every attempt
yields a transport error, `FetchURL` performs exactly `retries + 1`
attempts, returns a nil response, and surfaces the transport error of the
final attempt (attempt index `retries.toNat`, counting from 0). -/
theorem fetchURL_neverResponds (e : Nat → String) (retries : Int)
    (_hr : 1 ≤ retries) :
    FetchURL (fun i => .failure (e i)) 0 retries =
      { resp := none, err := some (.transport (e retries.toNat)),
        attempts := retries.toNat + 1 } := by
  have h := fetchURL_allFail e retries.toNat retries rfl 0
  simpa using h

/-- C5 — witness. -/
theorem fetchURL_neverResponds_witness :
    FetchURL (fun i => .failure (toString i)) 0 2 =
      { resp := none, err := some (.transport (toString 2)), attempts := 3 } :=
  fetchURL_neverResponds (fun i => toString i) 2 (by decide)

/-- C6. If the endpoint answers HTTP 200 on the `N`-th attempt with
`N ≤ retries + 1` (all earlier attempts being transport errors), then
`FetchURL` returns that response with a nil error and performs exactly `N`
attempts — none beyond the successful one. -/
theorem fetchURL_eventualSuccess (get : Nat → GetResult) (resp : Response)
    (retries : Int) (N : Nat) (hN : 1 ≤ N) (hbud : (N : Int) ≤ retries + 1)
    (hfail : ∀ j, j < N - 1 → ∃ e, get j = .failure e)
    (hresp : get (N - 1) = .response resp) (h200 : resp.statusCode = 200) :
    FetchURL get 0 retries = { resp := some resp, err := none, attempts := N } := by
  have h := fetchURL_succeedsAfter get resp (N - 1) retries 0 (by omega)
    (fun j hj => by simpa using hfail j hj) (by simpa using hresp) h200
  rw [h]
  congr 1
  omega

/-- C6 — witness: transport errors on attempts 0 and 1, HTTP 200 on the
third attempt (`N = 3`) with budget 2. -/
theorem fetchURL_eventualSuccess_witness :
    FetchURL
      (fun i => if i < 2 then .failure "conn refused"
                else .response { statusCode := 200 }) 0 2 =
      { resp := some { statusCode := 200 }, err := none, attempts := 3 } :=
  fetchURL_eventualSuccess
    (fun i => if i < 2 then .failure "conn refused"
              else .response { statusCode := 200 })
    { statusCode := 200 } 2 3 (by decide) (by decide)
    (fun j hj => ⟨"conn refused", by interval_cases j <;> rfl⟩)
    (by rfl) (by decide)

/-- C10. `FetchURL` is a total function of its oracle and budget (it is
defined by well-founded recursion on `retries.toNat`), and for every
budget `retries ≤ 0` — zero or negative — a failing first attempt is
final: exactly one attempt is performed and the call returns a nil
response with that attempt's transport error, never entering the
recursion. -/
theorem fetchURL_nonpositive_budget (get : Nat → GetResult) (retries : Int)
    (e : String) (hr : retries ≤ 0) (hget : get 0 = .failure e) :
    FetchURL get 0 retries =
      { resp := none, err := some (.transport e), attempts := 1 } := by
  rw [FetchURL, hget]
  have hnp : ¬ retries > 0 := by omega
  simp [hnp]

/-- C10 — witness, at the negative budget `-2`. -/
theorem fetchURL_nonpositive_budget_witness :
    FetchURL (fun _ => .failure "boom") 0 (-2) =
      { resp := none, err := some (.transport "boom"), attempts := 1 } :=
  fetchURL_nonpositive_budget (fun _ => .failure "boom") (-2) "boom"
    (by decide) rfl

/-! ## The harness orchestrator `SetupTestServerWithAgent`

The orchestrator mutates the process environment, starts background
components, registers teardown actions with the test framework, and
returns up to two client handles. We embed it as a pure function from its
oracle inputs to a `SetupResult`: the ordered trace of setup events, the
teardown actions in registration order, the final environment, and the
returned `Clients` value. Fatal aborts (`tb.Fatalf`) end the test instead
of returning, so the embedding covers the completed invocation, which is
the path every claim speaks about. -/

/-- The process environment: a partial map from variable names to values. -/
def Env := String → Option String

/-- `os.Setenv`. -/
def setEnv (env : Env) (n v : String) : Env :=
  fun k => if k = n then some v else env k

/-- `os.Unsetenv`. -/
def unsetEnv (env : Env) (n : String) : Env :=
  fun k => if k = n then none else env k

/-- One action performed by a registered cleanup function:
`s.Close()` (its error collected via `tb.Error`, not thrown),
`agt.Close()`, or `os.Unsetenv` of one variable. -/
inductive TeardownAct where
  | closeServer
  | closeAgent
  | unsetEnvVar (name : String)
deriving DecidableEq, Repr

/-- A client configuration, with the fields the harness reads or writes:
host, the two client-relevant ports, data directory, and the agent-usage
flag with its socket address (spec §3 ClientConfig, §6 client contract). -/
structure ClientConfig where
  host : String
  sshPort : Nat
  httpPort : Nat
  dataDir : String
  useSSHAgent : Bool
  sshAgentAddr : String
deriving DecidableEq, Repr

/-- Modelled from the spec: `client.ConfigFromEnv` is not under `src/`;
per spec §4.7/§6 the client configuration is "derived either from
environment or explicit fields (host, ports, data dir, agent-usage flag,
agent address)", reading the ambient `CHARM_*` variables the harness
writes. -/
def ConfigFromEnv (env : Env) : ClientConfig where
  host := (env "CHARM_HOST").getD ""
  sshPort := ((env "CHARM_SSH_PORT").bind String.toNat?).getD 0
  httpPort := ((env "CHARM_HTTP_PORT").bind String.toNat?).getD 0
  dataDir := (env "CHARM_DATA_DIR").getD ""
  useSSHAgent := (env "CHARM_USE_SSH_AGENT").getD "" == "true"
  sshAgentAddr := (env "CHARM_SSH_AGENT_ADDR").getD ""

/-- The observable steps of a completed `SetupTestServerWithAgent` call,
in program order. -/
inductive SetupEvent where
  | setEnvE (name val : String)
  | serverStarted
  | healthProbe
  | agentStarted
  | cleanupRegistered (acts : List TeardownAct)
  | agentReadyObserved
  | clientConstructed (full : Bool) (cfg : ClientConfig)
deriving DecidableEq, Repr

/-- The `Clients` struct returned by the harness; each `*client.Client`
is represented by its configuration, `Full` by an `Option` since it is
nil when no agent was started. -/
structure Clients where
  full : Option ClientConfig
  noAgent : ClientConfig
deriving DecidableEq, Repr

/-- Everything a completed invocation produces or leaves behind. -/
structure SetupResult where
  events : List SetupEvent
  cleanups : List (List TeardownAct)
  finalEnv : Env
  clients : Clients

/-- The oracle inputs of one invocation: the initial process environment,
the values `server.DefaultConfig()` / `randomPort` / `tb.TempDir()`
produce, the agent's socket address, and the number of signers passed. -/
structure SetupInputs where
  env0 : Env
  host : String
  sshPort : Nat
  httpPort : Nat
  healthPort : Nat
  clientData : String
  agentSocket : String
  numSigners : Nat

/-- The actions of the main cleanup function (`testserver.go` lines
94–106): close the server, unset the four core variables, and — only when
the captured `agt` is non-nil — unset the two agent variables. -/
def mainCleanup (agentPresent : Bool) : List TeardownAct :=
  [.closeServer, .unsetEnvVar "CHARM_HOST", .unsetEnvVar "CHARM_SSH_PORT",
   .unsetEnvVar "CHARM_HTTP_PORT", .unsetEnvVar "CHARM_DATA_DIR"] ++
  (if agentPresent then
    [.unsetEnvVar "CHARM_USE_SSH_AGENT", .unsetEnvVar "CHARM_SSH_AGENT_ADDR"]
   else [])

/-- Go's `testing` framework runs functions registered with `tb.Cleanup`
in last-added, first-called order, so the executed teardown sequence is
the reverse of the registration order, flattened. -/
def runCleanups (cs : List (List TeardownAct)) : List TeardownAct :=
  cs.reverse.flatten

/-- `SetupTestServerWithAgent` from `src/testserver/testserver.go`, on the
completed (non-fatal) path. Program order follows the source: write the
four core environment variables, start the server, probe its health
endpoint; if signers were given, start the agent, register its close as a
cleanup, and spin until `agt.Ready()`; register the main cleanup;
construct the `NoAgent` client from the ambient environment with
host/ports/data-dir overlaid; if an agent runs, write the two agent
variables and construct the `Full` client likewise, additionally forcing
`UseSSHAgent` and `SSHAgentAddr`. -/
def SetupTestServerWithAgent (inp : SetupInputs) : SetupResult :=
  let agentPresent : Bool := inp.numSigners != 0
  let env1 := setEnv inp.env0 "CHARM_HOST" inp.host
  let env2 := setEnv env1 "CHARM_SSH_PORT" (toString inp.sshPort)
  let env3 := setEnv env2 "CHARM_HTTP_PORT" (toString inp.httpPort)
  let env4 := setEnv env3 "CHARM_DATA_DIR" inp.clientData
  let agentEvents : List SetupEvent :=
    if agentPresent then
      [.agentStarted, .cleanupRegistered [.closeAgent], .agentReadyObserved]
    else []
  let registered : List (List TeardownAct) :=
    (if agentPresent then [[TeardownAct.closeAgent]] else []) ++
      [mainCleanup agentPresent]
  let ncfg : ClientConfig :=
    { ConfigFromEnv env4 with
      host := inp.host
      sshPort := inp.sshPort
      httpPort := inp.httpPort
      dataDir := inp.clientData }
  let env5 := setEnv env4 "CHARM_SSH_AGENT_ADDR" inp.agentSocket
  let env6 := setEnv env5 "CHARM_USE_SSH_AGENT" "true"
  let fcfg : ClientConfig :=
    { ConfigFromEnv env6 with
      host := inp.host
      sshPort := inp.sshPort
      httpPort := inp.httpPort
      dataDir := inp.clientData
      useSSHAgent := true
      sshAgentAddr := inp.agentSocket }
  { events :=
      [.setEnvE "CHARM_HOST" inp.host,
       .setEnvE "CHARM_SSH_PORT" (toString inp.sshPort),
       .setEnvE "CHARM_HTTP_PORT" (toString inp.httpPort),
       .setEnvE "CHARM_DATA_DIR" inp.clientData,
       .serverStarted, .healthProbe] ++
      agentEvents ++
      [.cleanupRegistered (mainCleanup agentPresent),
       .clientConstructed false ncfg] ++
      (if agentPresent then
        [.setEnvE "CHARM_SSH_AGENT_ADDR" inp.agentSocket,
         .setEnvE "CHARM_USE_SSH_AGENT" "true",
         .clientConstructed true fcfg]
       else [])
    cleanups := registered
    finalEnv := if agentPresent then env6 else env4
    clients :=
      { noAgent := ncfg
        full := if agentPresent then some fcfg else none } }

/-- The environment writes an event performs, if it is one. -/
def setEnvWrite : SetupEvent → Option (String × String)
  | .setEnvE n v => some (n, v)
  | _ => none

/-- True unless the event is the background start of the server. -/
def notServerStarted : SetupEvent → Bool
  | .serverStarted => false
  | _ => true

/-- The environment variables written before the server is started, i.e.
immediately after the server configuration is finalized. -/
def envWritesBeforeStart (evs : List SetupEvent) : List (String × String) :=
  (evs.takeWhile notServerStarted).filterMap setEnvWrite

/-- Recognizes the construction of the `Full` (agent-aware) client. -/
def isFullConstruction : SetupEvent → Bool
  | .clientConstructed true _ => true
  | _ => false

/-- Recognizes the observation that the agent's readiness flag is true. -/
def isAgentReadyObserved : SetupEvent → Bool
  | .agentReadyObserved => true
  | _ => false

/-- Every event strictly before the first observation of the agent's
readiness flag is not a construction of the `Full` client. -/
def fullOnlyAfterReady (evs : List SetupEvent) : Bool :=
  (evs.takeWhile fun ev => !(isAgentReadyObserved ev)).all
    fun ev => !(isFullConstruction ev)

/-- A concrete invocation with one signer: empty initial environment,
host `h`, ports 1/2/3 (SSH/HTTP/health), client data dir `cd`, agent
socket `sock`. -/
def exInputsAgent : SetupInputs where
  env0 := fun _ => none
  host := "h"
  sshPort := 1
  httpPort := 2
  healthPort := 3
  clientData := "cd"
  agentSocket := "sock"
  numSigners := 1

/-- The same concrete invocation with no signers. -/
def exInputsNoAgent : SetupInputs :=
  { exInputsAgent with numSigners := 0 }

/-- C2 — counterexample. For the concrete one-signer invocation, the
executed teardown sequence (cleanup functions run in reverse registration
order) unsets the agent environment variables at positions 5 and 6 and
closes the agent last, at position 7: there are positions holding
`closeAgent` and `unsetEnvVar "CHARM_USE_SSH_AGENT"` with the close *not*
before the unset, contradicting the claimed order (agent closed before its
variables are unset). -/
theorem cleanup_order_counterexample :
    runCleanups (SetupTestServerWithAgent exInputsAgent).cleanups =
      [.closeServer, .unsetEnvVar "CHARM_HOST", .unsetEnvVar "CHARM_SSH_PORT",
       .unsetEnvVar "CHARM_HTTP_PORT", .unsetEnvVar "CHARM_DATA_DIR",
       .unsetEnvVar "CHARM_USE_SSH_AGENT", .unsetEnvVar "CHARM_SSH_AGENT_ADDR",
       .closeAgent] ∧
    ∃ i j : Nat, ¬ i < j ∧
      (runCleanups (SetupTestServerWithAgent exInputsAgent).cleanups).get? i =
        some .closeAgent ∧
      (runCleanups (SetupTestServerWithAgent exInputsAgent).cleanups).get? j =
        some (.unsetEnvVar "CHARM_USE_SSH_AGENT") :=
  ⟨by decide, 7, 5, by decide, by decide, by decide⟩

/-- C2 — amended. The teardown actions registered by
`SetupTestServerWithAgent` with an agent execute in this order: (1) close
the server, collecting (not throwing) any close error; (2) unset the core
environment variables; (3) unset the agent-specific environment variables;
(4) close the agent. The agent-close cleanup is registered first and the
test framework runs cleanups last-added-first, so the agent is closed
*after* its environment variables are unset. -/
theorem cleanup_order (inp : SetupInputs) (h : inp.numSigners ≠ 0) :
    runCleanups (SetupTestServerWithAgent inp).cleanups =
      [.closeServer, .unsetEnvVar "CHARM_HOST", .unsetEnvVar "CHARM_SSH_PORT",
       .unsetEnvVar "CHARM_HTTP_PORT", .unsetEnvVar "CHARM_DATA_DIR",
       .unsetEnvVar "CHARM_USE_SSH_AGENT", .unsetEnvVar "CHARM_SSH_AGENT_ADDR",
       .closeAgent] := by
  have hb : (inp.numSigners != 0) = true := by simpa using h
  simp [SetupTestServerWithAgent, runCleanups, mainCleanup, hb]

/-- C2 — witness for the amended theorem. -/
theorem cleanup_order_witness :
    runCleanups (SetupTestServerWithAgent exInputsAgent).cleanups =
      [.closeServer, .unsetEnvVar "CHARM_HOST", .unsetEnvVar "CHARM_SSH_PORT",
       .unsetEnvVar "CHARM_HTTP_PORT", .unsetEnvVar "CHARM_DATA_DIR",
       .unsetEnvVar "CHARM_USE_SSH_AGENT", .unsetEnvVar "CHARM_SSH_AGENT_ADDR",
       .closeAgent] :=
  cleanup_order exInputsAgent (by decide)

/-- C3 — counterexample. For a concrete invocation whose health port is 3
(distinct from the SSH port 1 and HTTP port 2), the environment writes
performed immediately after the server configuration is finalized are
exactly four — host, SSH port, HTTP port, and client data directory — not
five, and no written value is the health port. -/
theorem env_writes_counterexample :
    envWritesBeforeStart (SetupTestServerWithAgent exInputsAgent).events =
      [("CHARM_HOST", "h"), ("CHARM_SSH_PORT", "1"),
       ("CHARM_HTTP_PORT", "2"), ("CHARM_DATA_DIR", "cd")] ∧
    (envWritesBeforeStart (SetupTestServerWithAgent exInputsAgent).events).length
      ≠ 5 ∧
    ∀ p ∈ envWritesBeforeStart (SetupTestServerWithAgent exInputsAgent).events,
      p.2 ≠ "3" := by
  refine ⟨by decide, by decide, ?_⟩
  decide

/-- C3 — amended. Immediately after the server configuration is finalized
the harness writes exactly four process-scoped environment variables —
the host, the SSH (control) port, the HTTP port, and the client-local data
directory; the health port is not exported to the environment. -/
theorem env_writes (inp : SetupInputs) :
    envWritesBeforeStart (SetupTestServerWithAgent inp).events =
      [("CHARM_HOST", inp.host), ("CHARM_SSH_PORT", toString inp.sshPort),
       ("CHARM_HTTP_PORT", toString inp.httpPort),
       ("CHARM_DATA_DIR", inp.clientData)] := by
  simp [SetupTestServerWithAgent, envWritesBeforeStart, notServerStarted,
    setEnvWrite]

/-- C4 — counterexample. For the concrete invocation with no signers, the
executed teardown unsets only the four core variables: the agent-specific
variables are *not* unset when no agent was started. -/
theorem noAgent_unset_counterexample :
    runCleanups (SetupTestServerWithAgent exInputsNoAgent).cleanups =
      [.closeServer, .unsetEnvVar "CHARM_HOST", .unsetEnvVar "CHARM_SSH_PORT",
       .unsetEnvVar "CHARM_HTTP_PORT", .unsetEnvVar "CHARM_DATA_DIR"] ∧
    TeardownAct.unsetEnvVar "CHARM_USE_SSH_AGENT" ∉
      runCleanups (SetupTestServerWithAgent exInputsNoAgent).cleanups ∧
    TeardownAct.unsetEnvVar "CHARM_SSH_AGENT_ADDR" ∉
      runCleanups (SetupTestServerWithAgent exInputsNoAgent).cleanups := by
  refine ⟨by decide, by decide, by decide⟩

/-- C4 — amended. Cleanup unsets exactly the variables this invocation
set: the four core variables always, and the agent-specific variables only
when an agent was started — with no signers, the executed teardown is
server close followed by the four core unsets and nothing else. -/
theorem noAgent_unset (inp : SetupInputs) (h : inp.numSigners = 0) :
    runCleanups (SetupTestServerWithAgent inp).cleanups =
      [.closeServer, .unsetEnvVar "CHARM_HOST", .unsetEnvVar "CHARM_SSH_PORT",
       .unsetEnvVar "CHARM_HTTP_PORT", .unsetEnvVar "CHARM_DATA_DIR"] := by
  simp [SetupTestServerWithAgent, runCleanups, mainCleanup, h]

/-- C4 — witness for the amended theorem. -/
theorem noAgent_unset_witness :
    runCleanups (SetupTestServerWithAgent exInputsNoAgent).cleanups =
      [.closeServer, .unsetEnvVar "CHARM_HOST", .unsetEnvVar "CHARM_SSH_PORT",
       .unsetEnvVar "CHARM_HTTP_PORT", .unsetEnvVar "CHARM_DATA_DIR"] :=
  noAgent_unset exInputsNoAgent rfl

/-- C7. With an empty signer list, the returned `Clients` value has
`Full = nil`, and no agent-specific environment variable (the
agent-enabled flag or the agent socket address) is ever written during
setup. -/
theorem noSigners_noAgentEnv (inp : SetupInputs) (h : inp.numSigners = 0) :
    (SetupTestServerWithAgent inp).clients.full = none ∧
    ∀ p ∈ (SetupTestServerWithAgent inp).events.filterMap setEnvWrite,
      p.1 ≠ "CHARM_USE_SSH_AGENT" ∧ p.1 ≠ "CHARM_SSH_AGENT_ADDR" := by
  refine ⟨by simp [SetupTestServerWithAgent, h], ?_⟩
  simp [SetupTestServerWithAgent, h, setEnvWrite]

/-- C7 — witness. -/
theorem noSigners_noAgentEnv_witness :
    (SetupTestServerWithAgent exInputsNoAgent).clients.full = none ∧
    ∀ p ∈ (SetupTestServerWithAgent exInputsNoAgent).events.filterMap
        setEnvWrite,
      p.1 ≠ "CHARM_USE_SSH_AGENT" ∧ p.1 ≠ "CHARM_SSH_AGENT_ADDR" :=
  noSigners_noAgentEnv exInputsNoAgent rfl

/-- C8. With a non-empty signer list, the harness constructs a `Full`
client whose configuration has `UseSSHAgent = true` and whose agent
socket address is the address reported by the agent's `Socket()`
accessor; a `Full` construction occurs in the trace, and no event before
the first observation of the agent's readiness flag is a `Full`
construction — the `Full` client is built only after readiness is
observed. -/
theorem withSigners_full (inp : SetupInputs) (h : inp.numSigners ≠ 0) :
    (∃ fcfg, (SetupTestServerWithAgent inp).clients.full = some fcfg ∧
      fcfg.useSSHAgent = true ∧ fcfg.sshAgentAddr = inp.agentSocket) ∧
    (SetupTestServerWithAgent inp).events.any isFullConstruction = true ∧
    fullOnlyAfterReady (SetupTestServerWithAgent inp).events = true := by
  have hb : (inp.numSigners != 0) = true := by simpa using h
  have hfull : (SetupTestServerWithAgent inp).clients.full =
      some { host := inp.host, sshPort := inp.sshPort,
             httpPort := inp.httpPort, dataDir := inp.clientData,
             useSSHAgent := true, sshAgentAddr := inp.agentSocket } := by
    simp [SetupTestServerWithAgent, hb]
  refine ⟨⟨_, hfull, rfl, rfl⟩, ?_, ?_⟩
  · simp [SetupTestServerWithAgent, hb, isFullConstruction]
  · simp [SetupTestServerWithAgent, hb, fullOnlyAfterReady,
      isAgentReadyObserved, isFullConstruction]

/-- C8 — witness. -/
theorem withSigners_full_witness :
    (∃ fcfg,
      (SetupTestServerWithAgent exInputsAgent).clients.full = some fcfg ∧
      fcfg.useSSHAgent = true ∧
      fcfg.sshAgentAddr = exInputsAgent.agentSocket) ∧
    (SetupTestServerWithAgent exInputsAgent).events.any isFullConstruction
      = true ∧
    fullOnlyAfterReady (SetupTestServerWithAgent exInputsAgent).events
      = true :=
  withSigners_full exInputsAgent (by decide)

/-- C9. Whenever both client handles are constructed, the `NoAgent` and
`Full` configurations agree on host, SSH port, HTTP port, and data
directory — all four overlaid from the single `ServerConfig` and the
shared client data path — and `Full` differs only in its agent fields:
`UseSSHAgent = true` and the agent socket address. -/
theorem clients_agree (inp : SetupInputs) (fcfg : ClientConfig)
    (h : (SetupTestServerWithAgent inp).clients.full = some fcfg) :
    fcfg.host = (SetupTestServerWithAgent inp).clients.noAgent.host ∧
    fcfg.sshPort = (SetupTestServerWithAgent inp).clients.noAgent.sshPort ∧
    fcfg.httpPort = (SetupTestServerWithAgent inp).clients.noAgent.httpPort ∧
    fcfg.dataDir = (SetupTestServerWithAgent inp).clients.noAgent.dataDir ∧
    fcfg.useSSHAgent = true ∧
    fcfg.sshAgentAddr = inp.agentSocket := by
  by_cases hn : inp.numSigners = 0
  · simp [SetupTestServerWithAgent, hn] at h
  · have hb : (inp.numSigners != 0) = true := by simpa using hn
    simp only [SetupTestServerWithAgent, hb, if_true] at h ⊢
    simp only [Option.some.injEq] at h
    subst h
    simp [SetupTestServerWithAgent, hb]

/-- C9 — witness, at the concrete one-signer invocation. -/
theorem clients_agree_witness :
    ({ host := "h", sshPort := 1, httpPort := 2, dataDir := "cd",
       useSSHAgent := true, sshAgentAddr := "sock" } : ClientConfig).host =
      (SetupTestServerWithAgent exInputsAgent).clients.noAgent.host ∧
    ({ host := "h", sshPort := 1, httpPort := 2, dataDir := "cd",
       useSSHAgent := true, sshAgentAddr := "sock" } : ClientConfig).sshPort =
      (SetupTestServerWithAgent exInputsAgent).clients.noAgent.sshPort ∧
    ({ host := "h", sshPort := 1, httpPort := 2, dataDir := "cd",
       useSSHAgent := true, sshAgentAddr := "sock" } : ClientConfig).httpPort =
      (SetupTestServerWithAgent exInputsAgent).clients.noAgent.httpPort ∧
    ({ host := "h", sshPort := 1, httpPort := 2, dataDir := "cd",
       useSSHAgent := true, sshAgentAddr := "sock" } : ClientConfig).dataDir =
      (SetupTestServerWithAgent exInputsAgent).clients.noAgent.dataDir ∧
    ({ host := "h", sshPort := 1, httpPort := 2, dataDir := "cd",
       useSSHAgent := true, sshAgentAddr := "sock" } : ClientConfig).useSSHAgent
      = true ∧
    ({ host := "h", sshPort := 1, httpPort := 2, dataDir := "cd",
       useSSHAgent := true, sshAgentAddr := "sock" } : ClientConfig).sshAgentAddr
      = exInputsAgent.agentSocket :=
  clients_agree exInputsAgent
    { host := "h", sshPort := 1, httpPort := 2, dataDir := "cd",
      useSSHAgent := true, sshAgentAddr := "sock" } (by decide)

end Testserver
